import Mathlib

/-
Shallow embedding of the shrimpl-carbon-ui estimation engine
(src/estimation/*.py).  Python floats are modelled as exact rationals
(ℚ), `raise ValueError(msg)` as `Except.error msg`, and `Optional[T]`
as `Option T`.  Each Lean definition mirrors the Python function of the
same name; dataclasses become structures with the same fields and
default values.  The resolved-inputs audit dictionary assembled by the
aggregator is not modelled (no claim refers to it); the numeric results,
breakdown keys and error messages are.
-/

namespace Shrimpl

/-- Reporting period, `Literal["cycle", "year"]` in `estimator.py` and
`otherghg.py`. -/
inductive Period where
  | cycle
  | year
deriving DecidableEq

/-- Boundary mode, `Literal["A", "B"]` in `estimator.py` and
`FeedEmissions.py`. -/
inductive Boundary where
  | A
  | B
deriving DecidableEq

/-- Energy source, `Literal["grid", "diesel", "petrol"]` in
`Aeration_energy.py` and `Water_exchange_estimation.py`. -/
inductive EnergySource where
  | grid
  | diesel
  | petrol
deriving DecidableEq

/-- Python's `math.pi`: the IEEE-754 double closest to π, which is the
exact rational 884279719003555 / 2^48. -/
def piQ : ℚ := 884279719003555 / 281474976710656

namespace FeedEmissions

/-- `FeedEmissions.py` line 9. -/
def _DEFAULT_FEED_EF_KGCO2E_PER_KG : ℚ := 8.7

/-- `FeedEmissions.py` line 10. -/
def _DEFAULT_SEED_EF_KGCO2E_PER_1000_PL : ℚ := 0.23

/-- `FeedEmissions.py` `feed_emissions_kgco2e`.  The `boundary` argument
is accepted but never read, exactly as in the source. -/
def feed_emissions_kgco2e (total_feed_kg : ℚ) (boundary : Boundary)
    (emission_intensity_kgco2e_per_kg : Option ℚ) : Except String ℚ :=
  if total_feed_kg < 0 then .error "total_feed_kg must be >= 0"
  else
    let ef := match emission_intensity_kgco2e_per_kg with
      | some v => v
      | none => _DEFAULT_FEED_EF_KGCO2E_PER_KG
    if ef < 0 then .error "feed emission factor must be >= 0"
    else .ok (total_feed_kg * ef)

/-- `FeedEmissions.py` `seed_emissions_kgco2e`.  The `boundary` argument
is accepted but never read, exactly as in the source. -/
def seed_emissions_kgco2e (thousand_pl : ℚ) (boundary : Boundary)
    (emission_intensity_kgco2e_per_thousand_pl : Option ℚ) : Except String ℚ :=
  if thousand_pl < 0 then .error "thousand_pl must be >= 0"
  else
    let ef := match emission_intensity_kgco2e_per_thousand_pl with
      | some v => v
      | none => _DEFAULT_SEED_EF_KGCO2E_PER_1000_PL
    if ef < 0 then .error "seed emission factor must be >= 0"
    else .ok (thousand_pl * ef)

end FeedEmissions

namespace Aeration

/-- `Aeration_energy.py` lines 9-16, the country → grid-factor dict;
a key miss (`dict.get` returning `None`) is `none`. -/
def _DEFAULT_GRID_EF_KG_PER_KWH : String → Option ℚ
  | "Mexico" => some 0.415
  | "Vietnam" => some 0.525
  | "Ecuador" => some 0.206
  | "Brazil" => some 0.074
  | "India" => some 0.618
  | "Thailand" => some 0.401
  | _ => none

/-- `Aeration_energy.py` lines 18-21.  The Python dict has keys only for
`diesel` and `petrol`; the `grid` row is unreachable because the grid
branch returns earlier. -/
def _DEFAULT_FUEL_EF_KG_PER_LITER : EnergySource → ℚ
  | .diesel => 2.64
  | .petrol => 2.31
  | .grid => 0

/-- `Aeration_energy.py` line 23 (Annex I.2.1). -/
def _HP_TO_KW : ℚ := 0.7457

/-- `Aeration_energy.py` `AerationInputs` dataclass. -/
structure AerationInputs where
  total_aeration_hp : ℚ
  operating_hours : ℚ
  motor_efficiency : ℚ := 0.80
  blower_efficiency : ℚ := 1.0
  energy_source : EnergySource := .grid
  grid_country : String := "Mexico"
  grid_ef_kgco2e_per_kwh : Option ℚ := none
  fuel_ef_kgco2e_per_liter : Option ℚ := none
  diesel_lhv_mj_per_liter : ℚ := 36.0
  petrol_lhv_mj_per_liter : ℚ := 34.2
deriving DecidableEq

/-- `Aeration_energy.py` `aeration_energy_kwh`. -/
def aeration_energy_kwh (inp : AerationInputs) : Except String ℚ :=
  if inp.total_aeration_hp < 0 then .error "total_aeration_hp must be >= 0"
  else if inp.operating_hours < 0 then .error "operating_hours must be >= 0"
  else if inp.motor_efficiency ≤ 0 ∨ 1 < inp.motor_efficiency then
    .error "motor_efficiency must be in (0,1]"
  else if inp.blower_efficiency ≤ 0 ∨ 1 < inp.blower_efficiency then
    .error "blower_efficiency must be in (0,1]"
  else
    let kw_mech := inp.total_aeration_hp * _HP_TO_KW
    let kw_electric := kw_mech / (inp.motor_efficiency * inp.blower_efficiency)
    .ok (kw_electric * inp.operating_hours)

/-- `Aeration_energy.py` `aeration_emissions_kgco2e`. -/
def aeration_emissions_kgco2e (inp : AerationInputs) : Except String ℚ :=
  match aeration_energy_kwh inp with
  | .error e => .error e
  | .ok e_kwh =>
    match inp.energy_source with
    | .grid =>
      match inp.grid_ef_kgco2e_per_kwh with
      | some ef => .ok (e_kwh * ef)
      | none =>
        match _DEFAULT_GRID_EF_KG_PER_KWH inp.grid_country with
        | some ef => .ok (e_kwh * ef)
        | none => .error ("Unknown grid_country \x27" ++ inp.grid_country ++
            "\x27. Provide grid_ef_kgco2e_per_kwh to override.")
    | src =>
      let mj := e_kwh * 3.6
      let lhv := if src = .diesel then inp.diesel_lhv_mj_per_liter
        else inp.petrol_lhv_mj_per_liter
      let liters := if 0 < lhv then mj / lhv else 0
      let ef_l := match inp.fuel_ef_kgco2e_per_liter with
        | some v => v
        | none => _DEFAULT_FUEL_EF_KG_PER_LITER src
      .ok (liters * ef_l)

end Aeration

namespace WaterExchange

/-- `Water_exchange_estimation.py` `PumpingCalcMethod`. -/
inductive PumpingCalcMethod where
  | metered_kwh
  | hydraulic
  | specific_energy
deriving DecidableEq

/-- `Water_exchange_estimation.py` `PumpingModelInputs` dataclass. -/
structure PumpingModelInputs where
  volume_m3 : ℚ
  cycle_days : ℤ := 90
  method : PumpingCalcMethod := .hydraulic
  metered_kwh : Option ℚ := none
  specific_energy_kwh_per_m3 : Option ℚ := none
  pipe_diameter_m : ℚ := 1.5
  pipe_length_m : ℚ := 100.0
  static_head_m : ℚ := 2.0
  water_density_kg_m3 : ℚ := 1025.0
  friction_factor : ℚ := 0.02
  pump_efficiency : ℚ := 0.70
  gravity_m_s2 : ℚ := 9.81
  pumping_duration_hours : Option ℚ := none
  assumed_velocity_m_s : ℚ := 1.5
  energy_source : EnergySource := .grid
  grid_country : String := "Mexico"
  grid_ef_kgco2e_per_kwh : Option ℚ := none
  fuel_ef_kgco2e_per_liter : Option ℚ := none
deriving DecidableEq

/-- `Water_exchange_estimation.py` lines 66-73 (identical values to the
aeration module's own copy of the dict). -/
def _DEFAULT_GRID_EF_KG_PER_KWH : String → Option ℚ
  | "Mexico" => some 0.415
  | "Vietnam" => some 0.525
  | "Ecuador" => some 0.206
  | "Brazil" => some 0.074
  | "India" => some 0.618
  | "Thailand" => some 0.401
  | _ => none

/-- `Water_exchange_estimation.py` lines 78-81; the `grid` row is
unreachable (grid branch returns earlier). -/
def _DEFAULT_FUEL_EF_KG_PER_LITER : EnergySource → ℚ
  | .diesel => 2.64
  | .petrol => 2.31
  | .grid => 0

/-- Tail of the hydraulic branch of `pumping_energy_kwh`
(`Water_exchange_estimation.py` lines 137-146): friction head, total
dynamic head and energy as a function of the mean pipe velocity. -/
def pumpEnergyFromV (inp : PumpingModelInputs) (v_m_s : ℚ) : ℚ :=
  let hx_m := inp.friction_factor * (inp.pipe_length_m / inp.pipe_diameter_m) *
    (v_m_s ^ 2 / (2 * inp.gravity_m_s2))
  let tdh_m := inp.static_head_m + hx_m
  let e_j := inp.water_density_kg_m3 * inp.gravity_m_s2 * inp.volume_m3 * tdh_m /
    inp.pump_efficiency
  e_j / 3600000

/-- `Water_exchange_estimation.py` `pumping_energy_kwh`.  In the
duration-given sub-branch the source computes `t_s` and `q_m3_s` and
then `v_m_s = q_m3_s / area_m2 if area_m2 > 0 else 0.0`; in the
duration-inferred sub-branch it computes `t_s` after the `q_m3_s <= 0`
early return but never uses it. -/
def pumping_energy_kwh (inp : PumpingModelInputs) : Except String ℚ :=
  if inp.volume_m3 < 0 then .error "volume_m3 must be >= 0"
  else if inp.method = .metered_kwh then
    match inp.metered_kwh with
    | none => .error "method=\x27metered_kwh\x27 requires metered_kwh"
    | some m => if m < 0 then .error "metered_kwh must be >= 0" else .ok m
  else if inp.method = .specific_energy then
    match inp.specific_energy_kwh_per_m3 with
    | none => .error "method=\x27specific_energy\x27 requires specific_energy_kwh_per_m3"
    | some se =>
      if se < 0 then .error "specific_energy_kwh_per_m3 must be >= 0"
      else .ok (inp.volume_m3 * se)
  else if inp.pipe_diameter_m ≤ 0 then .error "pipe_diameter_m must be > 0"
  else if inp.pump_efficiency ≤ 0 ∨ 1 < inp.pump_efficiency then
    .error "pump_efficiency must be in (0, 1]"
  else
    let area_m2 := piQ * (inp.pipe_diameter_m / 2) ^ 2
    match inp.pumping_duration_hours with
    | some pumping_hours =>
      if pumping_hours ≤ 0 then .error "pumping_duration_hours must be > 0"
      else
        let t_s := pumping_hours * 3600
        let q_m3_s := inp.volume_m3 / t_s
        let v_m_s := if 0 < area_m2 then q_m3_s / area_m2 else 0
        .ok (pumpEnergyFromV inp v_m_s)
    | none =>
      let v_m_s := inp.assumed_velocity_m_s
      if v_m_s ≤ 0 then .error "assumed_velocity_m_s must be > 0"
      else
        let q_m3_s := v_m_s * area_m2
        if q_m3_s ≤ 0 then .ok 0
        else .ok (pumpEnergyFromV inp v_m_s)

/-- `Water_exchange_estimation.py` `pumping_emissions_kgco2e`.  The fuel
branch hard-codes lower heating values 36.0 (diesel) / 34.2 (petrol). -/
def pumping_emissions_kgco2e (inp : PumpingModelInputs) : Except String ℚ :=
  match pumping_energy_kwh inp with
  | .error e => .error e
  | .ok e_kwh =>
    match inp.energy_source with
    | .grid =>
      match inp.grid_ef_kgco2e_per_kwh with
      | some ef => .ok (e_kwh * ef)
      | none =>
        match _DEFAULT_GRID_EF_KG_PER_KWH inp.grid_country with
        | some ef => .ok (e_kwh * ef)
        | none => .error ("Unknown grid_country \x27" ++ inp.grid_country ++
            "\x27. Provide grid_ef_kgco2e_per_kwh to override.")
    | src =>
      let mj := e_kwh * 3.6
      let lhv_mj_per_liter : ℚ := if src = .diesel then 36.0 else 34.2
      let liters := if 0 < lhv_mj_per_liter then mj / lhv_mj_per_liter else 0
      let ef_l := match inp.fuel_ef_kgco2e_per_liter with
        | some v => v
        | none => _DEFAULT_FUEL_EF_KG_PER_LITER src
      .ok (liters * ef_l)

end WaterExchange

namespace LULUC

/-- `LULUC.py` `SoilType` literal. -/
inductive SoilType where
  | desert
  | tropical
  | temperate
  | boreal
  | peatland
  | mangrove
deriving DecidableEq

/-- `LULUC.py` lines 9-16: SOC defaults (tonnes C per ha, by 3 layers). -/
def _DEFAULT_SOC_TONNES_C_PER_HA : SoilType → ℚ × ℚ × ℚ
  | .desert => (10.0, 8.0, 6.0)
  | .tropical => (70.0, 55.0, 40.0)
  | .temperate => (85.0, 70.0, 50.0)
  | .boreal => (200.0, 150.0, 100.0)
  | .peatland => (500.0, 400.0, 300.0)
  | .mangrove => (300.0, 250.0, 200.0)

/-- `LULUC.py` line 18 (Annex III conversion). -/
def _C_TO_CO2 : ℚ := 3.67

/-- `LULUC.py` `LulucInputs` dataclass. -/
structure LulucInputs where
  soil_type : SoilType
  area_ha : ℚ
  farm_age_years : Option ℚ := none
  years_since_conversion : Option ℚ := none
  cycle_days : ℤ := 120
  immediate_release_fraction : ℚ := 0.7
  immediate_window_years : ℚ := 5.0
  amortization_years : ℤ := 20
deriving DecidableEq

/-- `LULUC.py` `_resolve_years_since_conversion`. -/
def _resolve_years_since_conversion (inp : LulucInputs) : Except String ℚ :=
  match inp.years_since_conversion with
  | some y => .ok y
  | none =>
    match inp.farm_age_years with
    | some y => .ok y
    | none => .error "Provide either years_since_conversion or farm_age_years."

/-- `LULUC.py` `luluc_emissions_kgco2e_per_year`. -/
def luluc_emissions_kgco2e_per_year (inp : LulucInputs) : Except String ℚ :=
  if inp.area_ha < 0 then .error "area_ha must be >= 0"
  else if inp.cycle_days ≤ 0 then .error "cycle_days must be > 0"
  else if inp.amortization_years ≤ 0 then .error "amortization_years must be > 0"
  else
    match _resolve_years_since_conversion inp with
    | .error e => .error e
    | .ok y =>
      if y < 0 then .error "years_since_conversion (or farm_age_years) must be >= 0"
      else
        let imm_frac := max 0 (min 1 inp.immediate_release_fraction)
        let soc_layers := _DEFAULT_SOC_TONNES_C_PER_HA inp.soil_type
        let total_soc_tC_per_ha := soc_layers.1 + soc_layers.2.1 + soc_layers.2.2
        let total_loss_tC := total_soc_tC_per_ha * inp.area_ha
        let total_tco2 := total_loss_tC * _C_TO_CO2
        let immediate_tco2_this_year :=
          if y ≤ inp.immediate_window_years then total_tco2 * imm_frac else 0
        let gradual_total_tco2 := total_tco2 * (1 - imm_frac)
        let gradual_tco2_this_year :=
          if y < (inp.amortization_years : ℚ) then
            gradual_total_tco2 / (inp.amortization_years : ℚ)
          else 0
        .ok ((immediate_tco2_this_year + gradual_tco2_this_year) * 1000)

/-- `LULUC.py` `luluc_emissions_kgco2e` (cycle-based: annual ×
`cycle_days/365`, using the `cycle_days` of the `LulucInputs` itself). -/
def luluc_emissions_kgco2e (inp : LulucInputs) : Except String ℚ :=
  match luluc_emissions_kgco2e_per_year inp with
  | .error e => .error e
  | .ok annual_kg => .ok (annual_kg * ((inp.cycle_days : ℚ) / 365))

end LULUC

namespace Sequestration

/-- `Carbon_Sequestration.py` `VegetationType` literal; the Python
string names contain spaces ("Tropical Forests" etc.). -/
inductive VegetationType where
  | Mangroves
  | TropicalForests
  | Grasslands
  | Wetlands
  | TemperateForests
  | Peatlands
deriving DecidableEq

/-- `Carbon_Sequestration.py` line 9. -/
def _C_TO_CO2 : ℚ := 3.67

/-- `Carbon_Sequestration.py` lines 11-18. -/
def _AGB_TC_PER_HA : VegetationType → ℚ
  | .Mangroves => 150.0
  | .TropicalForests => 120.0
  | .Grasslands => 40.0
  | .Wetlands => 60.0
  | .TemperateForests => 100.0
  | .Peatlands => 70.0

/-- `Carbon_Sequestration.py` lines 20-27. -/
def _ROOT_TO_SHOOT : VegetationType → ℚ
  | .Mangroves => 0.45
  | .TropicalForests => 0.24
  | .Grasslands => 0.20
  | .Wetlands => 0.50
  | .TemperateForests => 0.25
  | .Peatlands => 0.30

/-- `Carbon_Sequestration.py` lines 29-36. -/
def _GROWTH_RATE : VegetationType → ℚ
  | .Mangroves => 0.015
  | .TropicalForests => 0.015
  | .Grasslands => 0.03
  | .Wetlands => 0.02
  | .TemperateForests => 0.02
  | .Peatlands => 0.01

/-- `Carbon_Sequestration.py` `SequestrationInputs` dataclass. -/
structure SequestrationInputs where
  vegetation_type : VegetationType
  area_ha : ℚ
deriving DecidableEq

/-- `Carbon_Sequestration.py` `sequestration_kgco2e` (annual removals,
kg CO2e/year). -/
def sequestration_kgco2e (inp : SequestrationInputs) : Except String ℚ :=
  if inp.area_ha < 0 then .error "area_ha must be >= 0"
  else
    let veg := inp.vegetation_type
    let agb := _AGB_TC_PER_HA veg
    let bgb := agb * _ROOT_TO_SHOOT veg
    let total_biomass_c := agb + bgb
    let annual_c_increase_tC := total_biomass_c * _GROWTH_RATE veg * inp.area_ha
    let annual_co2_t := annual_c_increase_tC * _C_TO_CO2
    .ok (annual_co2_t * 1000)

end Sequestration

namespace OtherGHG

/-- `otherghg.py` `SystemType` literal. -/
inductive SystemType where
  | extensive
  | semi_intensive
  | intensive
deriving DecidableEq

/-- `otherghg.py` `MethodTier` literal. -/
inductive MethodTier where
  | tier1_default
  | tier2_tom_scaled
  | tier3_measured
deriving DecidableEq

/-- `otherghg.py` `GWPVersion` literal (only "ar6"). -/
inductive GWPVersion where
  | ar6
deriving DecidableEq

/-- `otherghg.py` lines 14-18: Tier 1 CH4 EF midpoints (g/m2/day). -/
def _CH4_G_M2_DAY : SystemType → ℚ
  | .extensive => (0.005 + 0.015) / 2
  | .semi_intensive => (0.020 + 0.050) / 2
  | .intensive => (0.060 + 0.120) / 2

/-- `otherghg.py` lines 20-24: Tier 1 N2O EF midpoints (g/m2/day). -/
def _N2O_G_M2_DAY : SystemType → ℚ
  | .extensive => (0.001 + 0.005) / 2
  | .semi_intensive => (0.005 + 0.015) / 2
  | .intensive => (0.020 + 0.045) / 2

/-- `otherghg.py` line 31: `_GWP100_AR6["ch4"]`. -/
def _GWP100_AR6_ch4 : ℚ := 27.0

/-- `otherghg.py` line 31: `_GWP100_AR6["n2o"]`. -/
def _GWP100_AR6_n2o : ℚ := 273.0

/-- `otherghg.py` `_period_days`. -/
def _period_days (period : Period) (cycle_days : ℚ) : Except String ℚ :=
  let days := if period = .year then 365 else cycle_days
  if days < 0 then .error "cycle_days must be >= 0" else .ok days

/-- `otherghg.py` `_tom_multiplier_saturating`:
`1 + a * (x/(x+k))` with `x = max(0, OM - OM_min)`. -/
def _tom_multiplier_saturating (om_mg_l om_min k a : ℚ) : Except String ℚ :=
  if k ≤ 0 then .error "tom_k_mg_l must be > 0"
  else
    let x := max 0 (om_mg_l - om_min)
    .ok (1 + a * (x / (x + k)))

/-- `otherghg.py` `TOMSummary` dataclass. -/
structure TOMSummary where
  om_avg_mg_l : ℚ
  om_p90_mg_l : Option ℚ := none
  coverage_pct : Option ℚ := none
  source : String := "satellite_calibrated"
  calibration_model_id : Option String := none
  calibration_rmse_mg_l : Option ℚ := none
  notes : Option String := none
deriving DecidableEq

/-- `otherghg.py` `PondGHGInputs` dataclass. -/
structure PondGHGInputs where
  pond_area_m2 : ℚ
  system_type : SystemType := .semi_intensive
  method_tier : MethodTier := .tier1_default
  ch4_ef_g_m2_day : Option ℚ := none
  n2o_ef_g_m2_day : Option ℚ := none
  tom : Option TOMSummary := none
  tom_om_min_mg_l : ℚ := 0.0
  tom_k_mg_l : ℚ := 20.0
  tom_a_ch4 : ℚ := 1.5
  tom_a_n2o : ℚ := 0.7
  tom_use_p90_for_ch4 : Bool := true
  measured_ch4_g_m2_day : Option ℚ := none
  measured_n2o_g_m2_day : Option ℚ := none
  gwp_version : GWPVersion := .ar6
deriving DecidableEq

/-- `otherghg.py` `PondGHGResult` dataclass.  The Python dicts
`efs_used_g_m2_day` and `gwps_used` (keys "ch4"/"n2o") become paired
fields. -/
structure PondGHGResult where
  total_kgco2e : ℚ
  ch4_kg : ℚ
  n2o_kg : ℚ
  ch4_kgco2e : ℚ
  n2o_kgco2e : ℚ
  method_tier_used : MethodTier
  days_used : ℚ
  efs_used_ch4_g_m2_day : ℚ
  efs_used_n2o_g_m2_day : ℚ
  tom_used : Option TOMSummary
  gwps_used_ch4 : ℚ
  gwps_used_n2o : ℚ
  note : String
deriving DecidableEq

/-- `otherghg.py` `pond_ch4_n2o_mrv`.  The intermediate
`Except String (ℚ × ℚ × String)` value packages the `ch4_ef`, `n2o_ef`
and `note` produced by the tier-selection block (lines 138-158). -/
def pond_ch4_n2o_mrv (inp : PondGHGInputs) (period : Period)
    (cycle_days : ℚ) : Except String PondGHGResult :=
  if inp.pond_area_m2 < 0 then .error "pond_area_m2 must be >= 0"
  else
    match _period_days period cycle_days with
    | .error e => .error e
    | .ok days =>
      let tom_used := inp.tom
      let efsAndNote : Except String (ℚ × ℚ × String) :=
        match inp.method_tier with
        | .tier3_measured =>
          match inp.measured_ch4_g_m2_day, inp.measured_n2o_g_m2_day with
          | some c, some n => .ok (c, n, "Tier 3: measured flux rates.")
          | _, _ => .error "Tier 3 selected but measured CH4/N2O rates not provided."
        | tier =>
          let ch4_ef := match inp.ch4_ef_g_m2_day with
            | some v => v
            | none => _CH4_G_M2_DAY inp.system_type
          let n2o_ef := match inp.n2o_ef_g_m2_day with
            | some v => v
            | none => _N2O_G_M2_DAY inp.system_type
          if tier = .tier2_tom_scaled then
            match inp.tom with
            | none => .error "Tier 2 selected but TOMSummary not provided."
            | some tom =>
              let om_for_ch4 := match inp.tom_use_p90_for_ch4, tom.om_p90_mg_l with
                | true, some p90 => p90
                | _, _ => tom.om_avg_mg_l
              match _tom_multiplier_saturating om_for_ch4 inp.tom_om_min_mg_l
                  inp.tom_k_mg_l inp.tom_a_ch4 with
              | .error e => .error e
              | .ok m_ch4 =>
                match _tom_multiplier_saturating tom.om_avg_mg_l inp.tom_om_min_mg_l
                    inp.tom_k_mg_l inp.tom_a_n2o with
                | .error e => .error e
                | .ok m_n2o =>
                  .ok (ch4_ef * m_ch4, n2o_ef * m_n2o,
                    "Tier 2: Annex EFs scaled by satellite-calibrated TOM (bounded saturating response).")
          else .ok (ch4_ef, n2o_ef, "Tier 1: Annex/system-type default EFs (or manual EF override).")
      match efsAndNote with
      | .error e => .error e
      | .ok (ch4_ef, n2o_ef, note) =>
        if ch4_ef < 0 ∨ n2o_ef < 0 then .error "emission factors must be >= 0"
        else
          let ch4_g := ch4_ef * inp.pond_area_m2 * days
          let n2o_g := n2o_ef * inp.pond_area_m2 * days
          let ch4_kg := ch4_g / 1000
          let n2o_kg := n2o_g / 1000
          let ch4_kgco2e := ch4_kg * _GWP100_AR6_ch4
          let n2o_kgco2e := n2o_kg * _GWP100_AR6_n2o
          .ok {
            total_kgco2e := ch4_kgco2e + n2o_kgco2e
            ch4_kg := ch4_kg
            n2o_kg := n2o_kg
            ch4_kgco2e := ch4_kgco2e
            n2o_kgco2e := n2o_kgco2e
            method_tier_used := inp.method_tier
            days_used := days
            efs_used_ch4_g_m2_day := ch4_ef
            efs_used_n2o_g_m2_day := n2o_ef
            tom_used := tom_used
            gwps_used_ch4 := _GWP100_AR6_ch4
            gwps_used_n2o := _GWP100_AR6_n2o
            note := note
          }

/-- `otherghg.py` `pond_ch4_n2o_kgco2e` (backward-compatible float
entry point). -/
def pond_ch4_n2o_kgco2e (inp : PondGHGInputs) (period : Period)
    (cycle_days : ℚ) : Except String ℚ :=
  match pond_ch4_n2o_mrv inp period cycle_days with
  | .error e => .error e
  | .ok r => .ok r.total_kgco2e

end OtherGHG

namespace Estimator

open FeedEmissions Aeration WaterExchange LULUC Sequestration OtherGHG

/-- `estimator.py` `Literal["total", "fcr"]` for `feed_input_mode`. -/
inductive FeedInputMode where
  | total
  | fcr
deriving DecidableEq

/-- `estimator.py` `EstimatorInputs` dataclass (the `mrv_metadata` dict,
which the source never uses in calculations, is not modelled). -/
structure EstimatorInputs where
  harvested_shrimp_kg : ℚ
  period : Period := .cycle
  cycle_days : ℤ := 90
  boundary : Boundary := .A
  pumping : Option PumpingModelInputs := none
  aeration : Option AerationInputs := none
  feed_input_mode : FeedInputMode := .total
  total_feed_kg : Option ℚ := none
  fcr : Option ℚ := none
  feed_emission_intensity_kgco2e_per_kg : Option ℚ := none
  seed_thousand_pl : Option ℚ := none
  seed_emission_intensity_kgco2e_per_thousand_pl : Option ℚ := none
  luluc : Option LulucInputs := none
  sequestration : Option SequestrationInputs := none
  pond_ghg : Option PondGHGInputs := none
deriving DecidableEq

/-- `estimator.py` `_period_fraction_of_year`. -/
def _period_fraction_of_year (period : Period) (cycle_days : ℚ) : ℚ :=
  match period with
  | .year => 1
  | .cycle => cycle_days / 365

/-- Evaluate one optional source: `none` (source absent) contributes no
breakdown entry; `some a` runs the calculator, propagating its error.
This is the `if inputs.X is not None: breakdown[k] = calc(...)` pattern
of `estimator.py`. -/
def optEmissions {α : Type} (f : α → Except String ℚ) :
    Option α → Except String (Option ℚ)
  | none => .ok none
  | some a =>
    match f a with
    | .ok v => .ok (some v)
    | .error e => .error e

/-- `estimator.py` lines 99-106: resolve the feed mass from
`feed_input_mode` (`fcr` mode overwrites `total_feed_kg` with
`fcr * harvested_shrimp_kg`; `total` mode passes `total_feed_kg`
through, which may be `none`). -/
def _resolve_total_feed (inputs : EstimatorInputs) : Except String (Option ℚ) :=
  match inputs.feed_input_mode with
  | .fcr =>
    match inputs.fcr with
    | none => .error "feed_input_mode is \x27fcr\x27 but fcr is None"
    | some f =>
      if f < 0 then .error "fcr must be >= 0"
      else .ok (some (f * inputs.harvested_shrimp_kg))
  | .total => .ok inputs.total_feed_kg

/-- The `breakdown` dict of `estimator.py` `estimate`: the only keys the
source ever inserts are these seven, each present exactly when its
source was evaluated. -/
structure Breakdown where
  pumping : Option ℚ := none
  aeration : Option ℚ := none
  feed : Option ℚ := none
  seed : Option ℚ := none
  luluc : Option ℚ := none
  sequestration : Option ℚ := none
  pond_ch4_n2o : Option ℚ := none
deriving DecidableEq

/-- Key/value list of the breakdown dict, in the source's insertion
order. -/
def optEntry (k : String) : Option ℚ → List (String × ℚ)
  | none => []
  | some v => [(k, v)]

/-- `breakdown.items()` in insertion order. -/
def Breakdown.toList (b : Breakdown) : List (String × ℚ) :=
  optEntry "pumping" b.pumping ++ optEntry "aeration" b.aeration ++
  optEntry "feed" b.feed ++ optEntry "seed" b.seed ++
  optEntry "luluc" b.luluc ++ optEntry "sequestration" b.sequestration ++
  optEntry "pond_ch4_n2o" b.pond_ch4_n2o

/-- `list(breakdown.keys())`. -/
def Breakdown.keys (b : Breakdown) : List String := b.toList.map Prod.fst

/-- `sum(breakdown.values())`. -/
def Breakdown.total (b : Breakdown) : ℚ := (b.toList.map Prod.snd).sum

/-- The result dict of `estimator.py` `estimate` (minus the
resolved-inputs audit record). -/
structure EstimateResult where
  period : Period
  cycle_days : Option ℤ
  boundary : Boundary
  total_kgco2e : ℚ
  intensity_kgco2e_per_kg_shrimp : ℚ
  breakdown_kgco2e : Breakdown
deriving DecidableEq

/-- `estimator.py` `estimate`. -/
def estimate (inputs : EstimatorInputs) : Except String EstimateResult :=
  if inputs.harvested_shrimp_kg ≤ 0 then .error "harvested_shrimp_kg must be > 0"
  else
    let frac_year := _period_fraction_of_year inputs.period (inputs.cycle_days : ℚ)
    (optEmissions pumping_emissions_kgco2e inputs.pumping).bind fun bPumping =>
    (optEmissions aeration_emissions_kgco2e inputs.aeration).bind fun bAeration =>
    (_resolve_total_feed inputs).bind fun total_feed_kg =>
    (optEmissions (fun tf => feed_emissions_kgco2e tf inputs.boundary
      inputs.feed_emission_intensity_kgco2e_per_kg) total_feed_kg).bind fun bFeed =>
    (optEmissions (fun pl => seed_emissions_kgco2e pl inputs.boundary
      inputs.seed_emission_intensity_kgco2e_per_thousand_pl)
      inputs.seed_thousand_pl).bind fun bSeed =>
    (optEmissions (fun l =>
      match luluc_emissions_kgco2e l with
      | .error e => .error e
      | .ok v => .ok (v * frac_year)) inputs.luluc).bind fun bLuluc =>
    (optEmissions (fun s =>
      match sequestration_kgco2e s with
      | .error e => .error e
      | .ok v => .ok (-v * frac_year)) inputs.sequestration).bind fun bSeq =>
    (optEmissions (fun p =>
      match pond_ch4_n2o_mrv p inputs.period (inputs.cycle_days : ℚ) with
      | .error e => .error e
      | .ok r => .ok r.total_kgco2e) inputs.pond_ghg).bind fun bPond =>
    let breakdown : Breakdown :=
      { pumping := bPumping, aeration := bAeration, feed := bFeed, seed := bSeed
        luluc := bLuluc, sequestration := bSeq, pond_ch4_n2o := bPond }
    let total_kgco2e := breakdown.total
    .ok {
      period := inputs.period
      cycle_days := if inputs.period = .cycle then some inputs.cycle_days else none
      boundary := inputs.boundary
      total_kgco2e := total_kgco2e
      intensity_kgco2e_per_kg_shrimp := total_kgco2e / inputs.harvested_shrimp_kg
      breakdown_kgco2e := breakdown
    }

end Estimator

open FeedEmissions Aeration WaterExchange LULUC Sequestration OtherGHG Estimator

lemma piQ_pos : 0 < piQ := by norm_num [piQ]

/-- C4: For every non-negative feed mass, feed emissions equal mass ×
intensity with the override used when present and the fixed default 8.7
otherwise; seed emissions equal thousand-PL × intensity with default
0.23; and the boundary argument never branches the arithmetic (results
for boundary A and B coincide for any mass and optional override). -/
theorem c4_feed_seed_intensity :
    (∀ (m : ℚ) (b : Boundary), 0 ≤ m →
      feed_emissions_kgco2e m b none = .ok (m * 8.7))
    ∧ (∀ (m ef : ℚ) (b : Boundary), 0 ≤ m → 0 ≤ ef →
      feed_emissions_kgco2e m b (some ef) = .ok (m * ef))
    ∧ (∀ (pl : ℚ) (b : Boundary), 0 ≤ pl →
      seed_emissions_kgco2e pl b none = .ok (pl * 0.23))
    ∧ (∀ (pl ef : ℚ) (b : Boundary), 0 ≤ pl → 0 ≤ ef →
      seed_emissions_kgco2e pl b (some ef) = .ok (pl * ef))
    ∧ (∀ (m : ℚ) (o : Option ℚ),
      feed_emissions_kgco2e m Boundary.A o = feed_emissions_kgco2e m Boundary.B o)
    ∧ (∀ (pl : ℚ) (o : Option ℚ),
      seed_emissions_kgco2e pl Boundary.A o = seed_emissions_kgco2e pl Boundary.B o) := by
  refine ⟨?_, ?_, ?_, ?_, ?_, ?_⟩
  · intro m b hm
    unfold FeedEmissions.feed_emissions_kgco2e
    rw [if_neg (not_lt.mpr hm)]
    norm_num [FeedEmissions._DEFAULT_FEED_EF_KGCO2E_PER_KG]
  · intro m ef b hm hef
    unfold FeedEmissions.feed_emissions_kgco2e
    rw [if_neg (not_lt.mpr hm)]
    simp only []
    rw [if_neg (not_lt.mpr hef)]
  · intro pl b hpl
    unfold FeedEmissions.seed_emissions_kgco2e
    rw [if_neg (not_lt.mpr hpl)]
    norm_num [FeedEmissions._DEFAULT_SEED_EF_KGCO2E_PER_1000_PL]
  · intro pl ef b hpl hef
    unfold FeedEmissions.seed_emissions_kgco2e
    rw [if_neg (not_lt.mpr hpl)]
    simp only []
    rw [if_neg (not_lt.mpr hef)]
  · intro m o
    rfl
  · intro pl o
    rfl

/-- Witness for C4 at concrete inputs. -/
theorem c4_feed_seed_intensity_witness :
    feed_emissions_kgco2e 15000 Boundary.A none = .ok (15000 * 8.7)
      ∧ seed_emissions_kgco2e 2000 Boundary.B (some 0.3) = .ok (2000 * 0.3) :=
  ⟨c4_feed_seed_intensity.1 15000 Boundary.A (by norm_num),
   c4_feed_seed_intensity.2.2.2.1 2000 0.3 Boundary.B (by norm_num) (by norm_num)⟩

lemma tom_multiplier_eq (om om_min k a : ℚ) (hk : 0 < k) :
    _tom_multiplier_saturating om om_min k a
      = .ok (1 + a * (max 0 (om - om_min) / (max 0 (om - om_min) + k))) := by
  unfold OtherGHG._tom_multiplier_saturating
  rw [if_neg (not_le.mpr hk)]

/-- C6 counterexample: the scaling coefficient `a = 0` is non-negative
and accepted by `_tom_multiplier_saturating`, but then the multiplier
equals `1`, which is not strictly below `1 + a = 1`. -/
theorem c6_counterexample :
    _tom_multiplier_saturating 5 0 20 0 = .ok 1 ∧ ¬((1 : ℚ) < 1 + 0) := by
  constructor
  · rw [tom_multiplier_eq 5 0 20 0 (by norm_num)]
    norm_num
  · norm_num

/-- C6 (amended): for floor `om_min`, saturation constant `k > 0` and
scaling coefficient `a ≥ 0`, the multiplier `1 + a·(x/(x+k))` computed
by `_tom_multiplier_saturating` is monotonically non-decreasing in the
organic-matter concentration and equals exactly 1 at or below the
floor; it is strictly below `1 + a` whenever `a > 0` (for `a = 0` it is
constantly `1 = 1 + a`).  The method defaults `tom_a_ch4 = 1.5` and
`tom_a_n2o = 0.7` are positive, so the strict bound applies to them. -/
theorem c6_tom_multiplier_props :
    (∀ om_min k a om1 om2 m1 m2 : ℚ, 0 < k → 0 ≤ a → om1 ≤ om2 →
      _tom_multiplier_saturating om1 om_min k a = .ok m1 →
      _tom_multiplier_saturating om2 om_min k a = .ok m2 → m1 ≤ m2)
    ∧ (∀ om_min k a om m : ℚ, 0 < k → 0 < a →
      _tom_multiplier_saturating om om_min k a = .ok m → m < 1 + a)
    ∧ (∀ om_min k a om m : ℚ, 0 < k → om ≤ om_min →
      _tom_multiplier_saturating om om_min k a = .ok m → m = 1)
    ∧ ({ pond_area_m2 := 1 : PondGHGInputs }.tom_a_ch4 = 1.5
        ∧ { pond_area_m2 := 1 : PondGHGInputs }.tom_a_n2o = 0.7
        ∧ (0 : ℚ) < 1.5 ∧ (0 : ℚ) < 0.7) := by
  refine ⟨?_, ?_, ?_, rfl, rfl, by norm_num, by norm_num⟩
  · intro om_min k a om1 om2 m1 m2 hk ha h12 h1 h2
    rw [tom_multiplier_eq om1 om_min k a hk] at h1
    rw [tom_multiplier_eq om2 om_min k a hk] at h2
    injection h1 with h1
    injection h2 with h2
    subst h1
    subst h2
    have hx1 : (0 : ℚ) ≤ max 0 (om1 - om_min) := le_max_left 0 _
    have hx2 : (0 : ℚ) ≤ max 0 (om2 - om_min) := le_max_left 0 _
    have hxle : max 0 (om1 - om_min) ≤ max 0 (om2 - om_min) :=
      max_le_max le_rfl (sub_le_sub_right h12 om_min)
    have hd1 : (0 : ℚ) < max 0 (om1 - om_min) + k := by linarith
    have hd2 : (0 : ℚ) < max 0 (om2 - om_min) + k := by linarith
    have hq : max 0 (om1 - om_min) / (max 0 (om1 - om_min) + k)
        ≤ max 0 (om2 - om_min) / (max 0 (om2 - om_min) + k) := by
      rw [div_le_div_iff hd1 hd2]
      nlinarith
    have := mul_le_mul_of_nonneg_left hq ha
    linarith
  · intro om_min k a om m hk ha h
    rw [tom_multiplier_eq om om_min k a hk] at h
    injection h with h
    subst h
    have hx : (0 : ℚ) ≤ max 0 (om - om_min) := le_max_left 0 _
    have hd : (0 : ℚ) < max 0 (om - om_min) + k := by linarith
    have hq : max 0 (om - om_min) / (max 0 (om - om_min) + k) < 1 := by
      rw [div_lt_one hd]
      linarith
    have := mul_lt_mul_of_pos_left hq ha
    linarith
  · intro om_min k a om m hk hom h
    rw [tom_multiplier_eq om om_min k a hk] at h
    injection h with h
    subst h
    have hx : max 0 (om - om_min) = 0 := max_eq_left (by linarith)
    rw [hx]
    norm_num

/-- Witness for C6 (amended) at concrete inputs (defaults
`om_min = 0`, `k = 20`, `a = 1.5`). -/
theorem c6_tom_multiplier_props_witness :
    (1 + 1.5 * ((1 : ℚ) / (1 + 20))) ≤ 1 + 1.5 * ((2 : ℚ) / (2 + 20))
      ∧ (1 + 1.5 * ((2 : ℚ) / (2 + 20))) < 1 + 1.5 := by
  constructor
  · refine c6_tom_multiplier_props.1 0 20 1.5 1 2 _ _ (by norm_num) (by norm_num)
      (by norm_num) ?_ ?_
    · rw [tom_multiplier_eq 1 0 20 1.5 (by norm_num)]
      norm_num
    · rw [tom_multiplier_eq 2 0 20 1.5 (by norm_num)]
      norm_num
  · refine c6_tom_multiplier_props.2.1 0 20 1.5 2 _ (by norm_num) (by norm_num) ?_
    rw [tom_multiplier_eq 2 0 20 1.5 (by norm_num)]
    norm_num

/-- Total of the three soil-carbon layers for a soil type
(`sum(soc_layers)` at `LULUC.py` line 89). -/
def socSum (st : SoilType) : ℚ :=
  (_DEFAULT_SOC_TONNES_C_PER_HA st).1 + (_DEFAULT_SOC_TONNES_C_PER_HA st).2.1
    + (_DEFAULT_SOC_TONNES_C_PER_HA st).2.2

/-- C3: with `years_since_conversion = 0` and
`immediate_release_fraction = 0.7` (other method parameters at their
defaults, amortization horizon `m > 0` arbitrary), the annual LULUC
allocation is the full immediate fraction of the total event magnitude
(soil-layer sum × area × 3.67, ×1000 for kg) plus one
amortization-year's share of the remaining 30%; and with
`years_since_conversion ≥ amortization_years` it is the immediate
fraction alone if still inside the immediate-release window, else 0. -/
theorem c3_luluc_allocation :
    (∀ (st : SoilType) (area : ℚ) (m : ℤ), 0 ≤ area → 0 < m →
      luluc_emissions_kgco2e_per_year
        { soil_type := st, area_ha := area, years_since_conversion := some 0,
          amortization_years := m }
      = .ok (socSum st * area * 3.67 * 1000 * 0.7
          + socSum st * area * 3.67 * 1000 * (1 - 0.7) / (m : ℚ)))
    ∧ (∀ (st : SoilType) (area y w : ℚ) (m : ℤ), 0 ≤ area → 0 < m → (m : ℚ) ≤ y →
      luluc_emissions_kgco2e_per_year
        { soil_type := st, area_ha := area, years_since_conversion := some y,
          immediate_window_years := w, amortization_years := m }
      = .ok (if y ≤ w then socSum st * area * 3.67 * 1000 * 0.7 else 0)) := by
  constructor
  · intro st area m harea hm
    unfold LULUC.luluc_emissions_kgco2e_per_year LULUC._resolve_years_since_conversion
    dsimp only
    rw [if_neg (not_lt.mpr harea), if_neg (by decide : ¬((120 : ℤ) ≤ 0)),
      if_neg (not_le.mpr hm), if_neg (by norm_num : ¬((0 : ℚ) < 0)),
      if_pos (by norm_num : (0 : ℚ) ≤ 5.0),
      if_pos (by exact_mod_cast hm : (0 : ℚ) < (m : ℚ))]
    congr 1
    have : max 0 (min 1 (0.7 : ℚ)) = 0.7 := by norm_num
    rw [this]
    unfold socSum LULUC._C_TO_CO2
    ring
  · intro st area y w m harea hm hym
    have hm' : (0 : ℚ) < (m : ℚ) := by exact_mod_cast hm
    unfold LULUC.luluc_emissions_kgco2e_per_year LULUC._resolve_years_since_conversion
    dsimp only
    rw [if_neg (not_lt.mpr harea), if_neg (by decide : ¬((120 : ℤ) ≤ 0)),
      if_neg (not_le.mpr hm), if_neg (not_lt.mpr (by linarith)),
      if_neg (not_lt.mpr hym)]
    have : max 0 (min 1 (0.7 : ℚ)) = 0.7 := by norm_num
    rw [this]
    by_cases hw : y ≤ w
    · rw [if_pos hw, if_pos hw]
      congr 1
      unfold socSum LULUC._C_TO_CO2
      ring
    · rw [if_neg hw, if_neg hw]
      congr 1
      ring

/-- Witness for C3 (mangrove, 5 ha; `m = 20`; second part at
`y = 25 ≥ 20`, window 5). -/
theorem c3_luluc_allocation_witness :
    luluc_emissions_kgco2e_per_year
      { soil_type := .mangrove, area_ha := 5, years_since_conversion := some 0,
        amortization_years := 20 }
      = .ok (socSum .mangrove * 5 * 3.67 * 1000 * 0.7
          + socSum .mangrove * 5 * 3.67 * 1000 * (1 - 0.7) / (20 : ℚ))
    ∧ luluc_emissions_kgco2e_per_year
      { soil_type := .mangrove, area_ha := 5, years_since_conversion := some 25,
        immediate_window_years := 5.0, amortization_years := 20 }
      = .ok (if (25 : ℚ) ≤ 5.0 then socSum .mangrove * 5 * 3.67 * 1000 * 0.7 else 0) :=
  ⟨c3_luluc_allocation.1 .mangrove 5 20 (by norm_num) (by decide),
   c3_luluc_allocation.2 .mangrove 5 25 5.0 20 (by norm_num) (by decide) (by norm_num)⟩

/-- C7: each mode/tier-selecting calculator fails when its required
companion field is absent, with an error naming the required field(s):
pumping `metered_kwh` / `specific_energy` without their fields, the
pond-flux measured tier without a measured rate, the pond-flux
organic-matter tier without a TOM summary, and LULUC years-since-
conversion resolution with neither field given. -/
theorem c7_missing_companion_fields :
    (∀ inp : PumpingModelInputs, inp.method = .metered_kwh →
      inp.metered_kwh = none → 0 ≤ inp.volume_m3 →
      pumping_energy_kwh inp = .error "method=\x27metered_kwh\x27 requires metered_kwh")
    ∧ (∀ inp : PumpingModelInputs, inp.method = .specific_energy →
      inp.specific_energy_kwh_per_m3 = none → 0 ≤ inp.volume_m3 →
      pumping_energy_kwh inp
        = .error "method=\x27specific_energy\x27 requires specific_energy_kwh_per_m3")
    ∧ (∀ (inp : PondGHGInputs) (period : Period) (cycle_days : ℚ),
      inp.method_tier = .tier3_measured →
      (inp.measured_ch4_g_m2_day = none ∨ inp.measured_n2o_g_m2_day = none) →
      0 ≤ inp.pond_area_m2 → 0 ≤ cycle_days →
      pond_ch4_n2o_mrv inp period cycle_days
        = .error "Tier 3 selected but measured CH4/N2O rates not provided.")
    ∧ (∀ (inp : PondGHGInputs) (period : Period) (cycle_days : ℚ),
      inp.method_tier = .tier2_tom_scaled → inp.tom = none →
      0 ≤ inp.pond_area_m2 → 0 ≤ cycle_days →
      pond_ch4_n2o_mrv inp period cycle_days
        = .error "Tier 2 selected but TOMSummary not provided.")
    ∧ (∀ inp : LulucInputs, inp.years_since_conversion = none →
      inp.farm_age_years = none →
      _resolve_years_since_conversion inp
        = .error "Provide either years_since_conversion or farm_age_years.") := by
  refine ⟨?_, ?_, ?_, ?_, ?_⟩
  · intro inp hm hmk hv
    unfold WaterExchange.pumping_energy_kwh
    rw [if_neg (not_lt.mpr hv), if_pos hm, hmk]
  · intro inp hm hse hv
    unfold WaterExchange.pumping_energy_kwh
    rw [if_neg (not_lt.mpr hv), if_neg (by rw [hm]; decide), if_pos hm, hse]
  · intro inp period cycle_days htier hmeas harea hcd
    have hdays : _period_days period cycle_days
        = .ok (if period = .year then 365 else cycle_days) := by
      unfold OtherGHG._period_days
      rw [if_neg (not_lt.mpr ?_)]
      split
      · norm_num
      · exact hcd
    unfold OtherGHG.pond_ch4_n2o_mrv
    rw [if_neg (not_lt.mpr harea), hdays, htier]
    rcases hmeas with h | h
    · rw [h]
    · rw [h]
      rcases hc : inp.measured_ch4_g_m2_day with _ | c
      · rfl
      · rfl
  · intro inp period cycle_days htier htom harea hcd
    have hdays : _period_days period cycle_days
        = .ok (if period = .year then 365 else cycle_days) := by
      unfold OtherGHG._period_days
      rw [if_neg (not_lt.mpr ?_)]
      split
      · norm_num
      · exact hcd
    unfold OtherGHG.pond_ch4_n2o_mrv
    rw [if_neg (not_lt.mpr harea), hdays, htier, htom]
    rfl
  · intro inp hy hf
    unfold LULUC._resolve_years_since_conversion
    rw [hy, hf]

/-- Witness for C7 at concrete inputs for each of the five cases. -/
theorem c7_missing_companion_fields_witness :
    pumping_energy_kwh { volume_m3 := 1, method := .metered_kwh }
      = .error "method=\x27metered_kwh\x27 requires metered_kwh"
    ∧ pumping_energy_kwh { volume_m3 := 1, method := .specific_energy }
      = .error "method=\x27specific_energy\x27 requires specific_energy_kwh_per_m3"
    ∧ pond_ch4_n2o_mrv { pond_area_m2 := 1, method_tier := .tier3_measured } .cycle 90
      = .error "Tier 3 selected but measured CH4/N2O rates not provided."
    ∧ pond_ch4_n2o_mrv { pond_area_m2 := 1, method_tier := .tier2_tom_scaled } .cycle 90
      = .error "Tier 2 selected but TOMSummary not provided."
    ∧ _resolve_years_since_conversion { soil_type := .mangrove, area_ha := 1 }
      = .error "Provide either years_since_conversion or farm_age_years." :=
  ⟨c7_missing_companion_fields.1 _ rfl rfl (by norm_num),
   c7_missing_companion_fields.2.1 _ rfl rfl (by norm_num),
   c7_missing_companion_fields.2.2.1 _ .cycle 90 rfl (Or.inl rfl) (by norm_num) (by norm_num),
   c7_missing_companion_fields.2.2.2.1 _ .cycle 90 rfl rfl (by norm_num) (by norm_num),
   c7_missing_companion_fields.2.2.2.2 _ rfl rfl⟩

/-- C5: aeration energy is hp × 0.7457 ÷ (motor × blower efficiency) ×
hours; grid emissions with a known country are energy × the country's
default factor; an explicit grid-factor override replaces the country
lookup exactly, so for Ecuador (default 0.206) an override of 0.5
scales the emissions by 0.5/0.206. -/
theorem c5_aeration_energy_and_grid :
    (∀ inp : AerationInputs,
      0 ≤ inp.total_aeration_hp → 0 ≤ inp.operating_hours →
      0 < inp.motor_efficiency → inp.motor_efficiency ≤ 1 →
      0 < inp.blower_efficiency → inp.blower_efficiency ≤ 1 →
      aeration_energy_kwh inp
        = .ok (inp.total_aeration_hp * 0.7457
            / (inp.motor_efficiency * inp.blower_efficiency) * inp.operating_hours))
    ∧ (∀ (inp : AerationInputs) (e f : ℚ),
      inp.energy_source = .grid → inp.grid_ef_kgco2e_per_kwh = none →
      Aeration._DEFAULT_GRID_EF_KG_PER_KWH inp.grid_country = some f →
      aeration_energy_kwh inp = .ok e →
      aeration_emissions_kgco2e inp = .ok (e * f))
    ∧ (∀ (inp : AerationInputs) (e o : ℚ),
      inp.energy_source = .grid → inp.grid_ef_kgco2e_per_kwh = some o →
      aeration_energy_kwh inp = .ok e →
      aeration_emissions_kgco2e inp = .ok (e * o))
    ∧ (∀ (inp : AerationInputs) (e : ℚ),
      inp.energy_source = .grid → inp.grid_country = "Ecuador" →
      inp.grid_ef_kgco2e_per_kwh = none →
      aeration_emissions_kgco2e inp = .ok e →
      aeration_emissions_kgco2e { inp with grid_ef_kgco2e_per_kwh := some 0.5 }
        = .ok (0.5 / 0.206 * e)) := by
  refine ⟨?_, ?_, ?_, ?_⟩
  · intro inp h1 h2 h3 h4 h5 h6
    unfold Aeration.aeration_energy_kwh
    rw [if_neg (not_lt.mpr h1), if_neg (not_lt.mpr h2),
      if_neg (by rw [not_or]; exact ⟨not_le.mpr h3, not_lt.mpr h4⟩),
      if_neg (by rw [not_or]; exact ⟨not_le.mpr h5, not_lt.mpr h6⟩)]
    rfl
  · intro inp e f hsrc hov hcountry he
    unfold Aeration.aeration_emissions_kgco2e
    rw [he, hsrc, hov, hcountry]
  · intro inp e o hsrc hov he
    unfold Aeration.aeration_emissions_kgco2e
    rw [he, hsrc, hov]
  · intro inp e hsrc hc hov hres
    have hEsame : aeration_energy_kwh { inp with grid_ef_kgco2e_per_kwh := some 0.5 }
        = aeration_energy_kwh inp := rfl
    rcases hE : aeration_energy_kwh inp with msg | E
    · rw [Aeration.aeration_emissions_kgco2e, hE] at hres
      exact absurd hres (by simp)
    · have h206 : aeration_emissions_kgco2e inp = .ok (E * 0.206) := by
        unfold Aeration.aeration_emissions_kgco2e
        rw [hE, hsrc, hov, hc]
        rfl
      have he206 : e = E * 0.206 := by
        rw [hres] at h206
        exact (Except.ok.injEq _ _).mp h206
      have : aeration_emissions_kgco2e { inp with grid_ef_kgco2e_per_kwh := some 0.5 }
          = .ok (E * 0.5) := by
        unfold Aeration.aeration_emissions_kgco2e
        rw [hEsame, hE, hsrc]
      rw [this, he206]
      congr 1
      ring

/-- Witness for C5: the aeration request of §8 of the spec (50 hp, 1080
hours, defaults, grid Ecuador), energy 50334.75 kWh, emissions under
the 0.5 override = 0.5/0.206 × the default-factor emissions. -/
theorem c5_aeration_energy_and_grid_witness :
    aeration_energy_kwh
      { total_aeration_hp := 50, operating_hours := 1080, grid_country := "Ecuador" }
      = .ok (50 * 0.7457 / (0.80 * 1.0) * 1080)
    ∧ aeration_emissions_kgco2e
      ({ total_aeration_hp := 50, operating_hours := 1080, grid_country := "Ecuador" }
        : AerationInputs)
      = .ok (50 * 0.7457 / (0.80 * 1.0) * 1080 * 0.206)
    ∧ aeration_emissions_kgco2e
      { total_aeration_hp := 50, operating_hours := 1080, grid_country := "Ecuador",
        grid_ef_kgco2e_per_kwh := some 0.5 }
      = .ok (0.5 / 0.206 * (50 * 0.7457 / (0.80 * 1.0) * 1080 * 0.206)) := by
  have hE := c5_aeration_energy_and_grid.1
    { total_aeration_hp := 50, operating_hours := 1080, grid_country := "Ecuador" }
    (by norm_num) (by norm_num) (by norm_num) (by norm_num) (by norm_num) (by norm_num)
  have hD := c5_aeration_energy_and_grid.2.1
    { total_aeration_hp := 50, operating_hours := 1080, grid_country := "Ecuador" }
    (50 * 0.7457 / (0.80 * 1.0) * 1080) 0.206 rfl rfl
    (by norm_num [Aeration._DEFAULT_GRID_EF_KG_PER_KWH]) hE
  exact ⟨hE, hD,
    c5_aeration_energy_and_grid.2.2.2
      { total_aeration_hp := 50, operating_hours := 1080, grid_country := "Ecuador" }
      (50 * 0.7457 / (0.80 * 1.0) * 1080 * 0.206) rfl rfl rfl hD⟩

/-- C8 counterexample: a hydraulic-method request with inferred duration
(`pumping_duration_hours = None`) and `cycle_days = 0 ≤ 0` does not
fail — `pumping_energy_kwh` never reads or validates `cycle_days` and
returns the hydraulic energy. -/
theorem c8_counterexample :
    ({ volume_m3 := 50000, cycle_days := 0 } : PumpingModelInputs).cycle_days ≤ 0
    ∧ ({ volume_m3 := 50000, cycle_days := 0 } : PumpingModelInputs).method = .hydraulic
    ∧ ({ volume_m3 := 50000, cycle_days := 0 }
        : PumpingModelInputs).pumping_duration_hours = none
    ∧ pumping_energy_kwh { volume_m3 := 50000, cycle_days := 0 }
      = .ok (1025 * 9.81 * 50000 * (2 + 0.02 * (100 / 1.5) * (1.5 ^ 2 / (2 * 9.81)))
          / 0.7 / 3600000) := by
  refine ⟨by decide, rfl, rfl, ?_⟩
  unfold WaterExchange.pumping_energy_kwh
  rw [if_neg (by norm_num : ¬((50000 : ℚ) < 0)),
    if_neg (by decide : ¬(PumpingCalcMethod.hydraulic = .metered_kwh)),
    if_neg (by decide : ¬(PumpingCalcMethod.hydraulic = .specific_energy)),
    if_neg (by norm_num : ¬((1.5 : ℚ) ≤ 0)),
    if_neg (by rw [not_or]; constructor <;> norm_num)]
  dsimp only
  rw [if_neg (by norm_num : ¬((1.5 : ℚ) ≤ 0)),
    if_neg (not_le.mpr (by norm_num [piQ] : (0 : ℚ) < 1.5 * (piQ * (1.5 / 2) ^ 2)))]
  unfold WaterExchange.pumpEnergyFromV
  norm_num

/-- C8 (amended): the pumping energy calculation never consults
`cycle_days` at all — its result is unchanged under any `cycle_days`,
including non-positive ones — and when the hydraulic duration is
inferred, the validated quantity is instead the assumed mean pipe
velocity, which must be > 0. -/
theorem c8_cycle_days_not_validated :
    (∀ (inp : PumpingModelInputs) (d : ℤ),
      pumping_energy_kwh { inp with cycle_days := d } = pumping_energy_kwh inp)
    ∧ (∀ inp : PumpingModelInputs, inp.method = .hydraulic →
      inp.pumping_duration_hours = none → inp.assumed_velocity_m_s ≤ 0 →
      0 ≤ inp.volume_m3 → 0 < inp.pipe_diameter_m →
      0 < inp.pump_efficiency → inp.pump_efficiency ≤ 1 →
      pumping_energy_kwh inp = .error "assumed_velocity_m_s must be > 0") := by
  constructor
  · intro inp d
    rfl
  · intro inp hm hd hvel hv hD he1 he2
    unfold WaterExchange.pumping_energy_kwh
    rw [if_neg (not_lt.mpr hv), if_neg (by rw [hm]; decide),
      if_neg (by rw [hm]; decide), if_neg (not_le.mpr hD),
      if_neg (by rw [not_or]; exact ⟨not_le.mpr he1, not_lt.mpr he2⟩), hd]
    dsimp only
    rw [if_pos hvel]

/-- Witness for C8 (amended): `cycle_days := -5` leaves the §8-style
pumping request's energy unchanged, and a zero assumed velocity with
inferred duration fails naming `assumed_velocity_m_s`. -/
theorem c8_cycle_days_not_validated_witness :
    pumping_energy_kwh { volume_m3 := 50000, cycle_days := (-5 : ℤ) }
      = pumping_energy_kwh ({ volume_m3 := 50000 } : PumpingModelInputs)
    ∧ pumping_energy_kwh { volume_m3 := 1, assumed_velocity_m_s := 0 }
      = .error "assumed_velocity_m_s must be > 0" :=
  ⟨c8_cycle_days_not_validated.1 { volume_m3 := 50000 } (-5),
   c8_cycle_days_not_validated.2 { volume_m3 := 1, assumed_velocity_m_s := 0 }
     rfl rfl (le_refl 0) (by norm_num) (show (0 : ℚ) < 1.5 by norm_num)
     (show (0 : ℚ) < 0.70 by norm_num) (show (0.70 : ℚ) ≤ 1 by norm_num)⟩

lemma pumping_energy_hydraulic_ok (inp : PumpingModelInputs) {E : ℚ}
    (hm : inp.method = .hydraulic) (h : pumping_energy_kwh inp = .ok E) :
    0 ≤ inp.volume_m3 ∧ 0 < inp.pipe_diameter_m ∧ 0 < inp.pump_efficiency ∧
    ((∃ t, inp.pumping_duration_hours = some t ∧ 0 < t ∧
        E = pumpEnergyFromV inp
          (inp.volume_m3 / (t * 3600) / (piQ * (inp.pipe_diameter_m / 2) ^ 2)))
      ∨ (inp.pumping_duration_hours = none ∧ 0 < inp.assumed_velocity_m_s ∧
        E = pumpEnergyFromV inp inp.assumed_velocity_m_s)) := by
  unfold WaterExchange.pumping_energy_kwh at h
  by_cases h1 : inp.volume_m3 < 0
  · rw [if_pos h1] at h
    exact absurd h (by simp)
  · rw [if_neg h1, if_neg (by rw [hm]; decide), if_neg (by rw [hm]; decide)] at h
    by_cases h2 : inp.pipe_diameter_m ≤ 0
    · rw [if_pos h2] at h
      exact absurd h (by simp)
    · rw [if_neg h2] at h
      by_cases h3 : inp.pump_efficiency ≤ 0 ∨ 1 < inp.pump_efficiency
      · rw [if_pos h3] at h
        exact absurd h (by simp)
      · rw [if_neg h3] at h
        push_neg at h3
        refine ⟨not_lt.mp h1, not_le.mp h2, h3.1, ?_⟩
        have harea : 0 < piQ * (inp.pipe_diameter_m / 2) ^ 2 :=
          mul_pos piQ_pos (pow_pos (div_pos (not_le.mp h2) (by norm_num)) 2)
        dsimp only at h
        rcases hd : inp.pumping_duration_hours with _ | t
        · rw [hd] at h
          dsimp only at h
          by_cases hvel : inp.assumed_velocity_m_s ≤ 0
          · rw [if_pos hvel] at h
            exact absurd h (by simp)
          · rw [if_neg hvel] at h
            have hq : ¬(inp.assumed_velocity_m_s * (piQ * (inp.pipe_diameter_m / 2) ^ 2) ≤ 0) :=
              not_le.mpr (mul_pos (not_le.mp hvel) harea)
            rw [if_neg hq] at h
            exact Or.inr ⟨rfl, not_le.mp hvel, ((Except.ok.injEq _ _).mp h).symm⟩
        · rw [hd] at h
          dsimp only at h
          by_cases ht : t ≤ 0
          · rw [if_pos ht] at h
            exact absurd h (by simp)
          · rw [if_neg ht] at h
            rw [if_pos harea] at h
            exact Or.inl ⟨t, rfl, not_le.mp ht, ((Except.ok.injEq _ _).mp h).symm⟩

lemma pumpEnergyFromV_mono_head {inp : PumpingModelInputs} {h1 h2 v : ℚ}
    (hρ : 0 ≤ inp.water_density_kg_m3) (hg : 0 < inp.gravity_m_s2)
    (hV : 0 ≤ inp.volume_m3) (hη : 0 < inp.pump_efficiency) (hh : h1 ≤ h2) :
    pumpEnergyFromV { inp with static_head_m := h1 } v
      ≤ pumpEnergyFromV { inp with static_head_m := h2 } v := by
  unfold WaterExchange.pumpEnergyFromV
  dsimp only
  have hcoef : 0 ≤ inp.water_density_kg_m3 * inp.gravity_m_s2 * inp.volume_m3 :=
    mul_nonneg (mul_nonneg hρ hg.le) hV
  have hnum := mul_le_mul_of_nonneg_left
    (add_le_add_right hh (inp.friction_factor * (inp.pipe_length_m / inp.pipe_diameter_m)
      * (v ^ 2 / (2 * inp.gravity_m_s2)))) hcoef
  have h36 : (0 : ℚ) ≤ 3600000 := by norm_num
  exact div_le_div_of_nonneg_right (div_le_div_of_nonneg_right hnum hη.le) h36

lemma pumpEnergyFromV_mono_length {inp : PumpingModelInputs} {L1 L2 v : ℚ}
    (hρ : 0 ≤ inp.water_density_kg_m3) (hg : 0 < inp.gravity_m_s2)
    (hV : 0 ≤ inp.volume_m3) (hη : 0 < inp.pump_efficiency)
    (hf : 0 ≤ inp.friction_factor) (hD : 0 < inp.pipe_diameter_m) (hL : L1 ≤ L2) :
    pumpEnergyFromV { inp with pipe_length_m := L1 } v
      ≤ pumpEnergyFromV { inp with pipe_length_m := L2 } v := by
  unfold WaterExchange.pumpEnergyFromV
  dsimp only
  have hcoef : 0 ≤ inp.water_density_kg_m3 * inp.gravity_m_s2 * inp.volume_m3 :=
    mul_nonneg (mul_nonneg hρ hg.le) hV
  have hsq : 0 ≤ v ^ 2 / (2 * inp.gravity_m_s2) :=
    div_nonneg (sq_nonneg v) (by linarith)
  have hfric : inp.friction_factor * (L1 / inp.pipe_diameter_m) * (v ^ 2 / (2 * inp.gravity_m_s2))
      ≤ inp.friction_factor * (L2 / inp.pipe_diameter_m) * (v ^ 2 / (2 * inp.gravity_m_s2)) :=
    mul_le_mul_of_nonneg_right
      (mul_le_mul_of_nonneg_left (div_le_div_of_nonneg_right hL hD.le) hf) hsq
  have hnum := mul_le_mul_of_nonneg_left (add_le_add_left hfric inp.static_head_m) hcoef
  have h36 : (0 : ℚ) ≤ 3600000 := by norm_num
  exact div_le_div_of_nonneg_right (div_le_div_of_nonneg_right hnum hη.le) h36

/-- C9: for hydraulic-method pumping requests that succeed (with the
physically sensible sign conditions on density, gravity and friction
factor), the computed energy is monotonically non-decreasing in the
static head and in the pipe length, all other parameters held fixed. -/
theorem c9_hydraulic_monotonic :
    (∀ (inp : PumpingModelInputs) (h1 h2 e1 e2 : ℚ),
      inp.method = .hydraulic →
      0 ≤ inp.water_density_kg_m3 → 0 < inp.gravity_m_s2 → 0 ≤ inp.friction_factor →
      h1 ≤ h2 →
      pumping_energy_kwh { inp with static_head_m := h1 } = .ok e1 →
      pumping_energy_kwh { inp with static_head_m := h2 } = .ok e2 →
      e1 ≤ e2)
    ∧ (∀ (inp : PumpingModelInputs) (L1 L2 e1 e2 : ℚ),
      inp.method = .hydraulic →
      0 ≤ inp.water_density_kg_m3 → 0 < inp.gravity_m_s2 → 0 ≤ inp.friction_factor →
      L1 ≤ L2 →
      pumping_energy_kwh { inp with pipe_length_m := L1 } = .ok e1 →
      pumping_energy_kwh { inp with pipe_length_m := L2 } = .ok e2 →
      e1 ≤ e2) := by
  constructor
  · intro inp h1 h2 e1 e2 hm hρ hg hf hh hA hB
    obtain ⟨hV1, hD1, hη1, hcase1⟩ :=
      pumping_energy_hydraulic_ok { inp with static_head_m := h1 } hm hA
    obtain ⟨hV2, hD2, hη2, hcase2⟩ :=
      pumping_energy_hydraulic_ok { inp with static_head_m := h2 } hm hB
    rcases hcase1 with ⟨t, hdt, ht, hE1⟩ | ⟨hdn, hvel, hE1⟩
    · rcases hcase2 with ⟨t', hdt', ht', hE2⟩ | ⟨hdn', hvel', hE2⟩
      · have hdt0 : inp.pumping_duration_hours = some t := hdt
        have hdt0' : inp.pumping_duration_hours = some t' := hdt'
        rw [hdt0] at hdt0'
        injection hdt0' with htt
        subst htt
        rw [hE1, hE2]
        exact pumpEnergyFromV_mono_head hρ hg hV1 hη1 hh
      · have hdt0 : inp.pumping_duration_hours = some t := hdt
        have hdn0 : inp.pumping_duration_hours = none := hdn'
        rw [hdt0] at hdn0
        exact absurd hdn0 (by simp)
    · rcases hcase2 with ⟨t', hdt', ht', hE2⟩ | ⟨hdn', hvel', hE2⟩
      · have hdt0 : inp.pumping_duration_hours = some t' := hdt'
        have hdn0 : inp.pumping_duration_hours = none := hdn
        rw [hdt0] at hdn0
        exact absurd hdn0 (by simp)
      · rw [hE1, hE2]
        exact pumpEnergyFromV_mono_head hρ hg hV1 hη1 hh
  · intro inp L1 L2 e1 e2 hm hρ hg hf hh hA hB
    obtain ⟨hV1, hD1, hη1, hcase1⟩ :=
      pumping_energy_hydraulic_ok { inp with pipe_length_m := L1 } hm hA
    obtain ⟨hV2, hD2, hη2, hcase2⟩ :=
      pumping_energy_hydraulic_ok { inp with pipe_length_m := L2 } hm hB
    rcases hcase1 with ⟨t, hdt, ht, hE1⟩ | ⟨hdn, hvel, hE1⟩
    · rcases hcase2 with ⟨t', hdt', ht', hE2⟩ | ⟨hdn', hvel', hE2⟩
      · have hdt0 : inp.pumping_duration_hours = some t := hdt
        have hdt0' : inp.pumping_duration_hours = some t' := hdt'
        rw [hdt0] at hdt0'
        injection hdt0' with htt
        subst htt
        rw [hE1, hE2]
        exact pumpEnergyFromV_mono_length hρ hg hV1 hη1 hf hD1 hh
      · have hdt0 : inp.pumping_duration_hours = some t := hdt
        have hdn0 : inp.pumping_duration_hours = none := hdn'
        rw [hdt0] at hdn0
        exact absurd hdn0 (by simp)
    · rcases hcase2 with ⟨t', hdt', ht', hE2⟩ | ⟨hdn', hvel', hE2⟩
      · have hdt0 : inp.pumping_duration_hours = some t' := hdt'
        have hdn0 : inp.pumping_duration_hours = none := hdn
        rw [hdt0] at hdn0
        exact absurd hdn0 (by simp)
      · rw [hE1, hE2]
        exact pumpEnergyFromV_mono_length hρ hg hV1 hη1 hf hD1 hh

/-- Hydraulic energy of a defaults-plus-head request with inferred
duration, evaluated in closed form (used to instantiate C9). -/
lemma pumping_energy_eval_head (V H : ℚ) (hV : 0 ≤ V) :
    pumping_energy_kwh { volume_m3 := V, static_head_m := H }
      = .ok (1025 * 9.81 * V * (H + 0.02 * (100 / 1.5) * (1.5 ^ 2 / (2 * 9.81)))
          / 0.7 / 3600000) := by
  unfold WaterExchange.pumping_energy_kwh
  rw [if_neg (not_lt.mpr hV),
    if_neg (by decide : ¬(PumpingCalcMethod.hydraulic = .metered_kwh)),
    if_neg (by decide : ¬(PumpingCalcMethod.hydraulic = .specific_energy)),
    if_neg (by norm_num : ¬((1.5 : ℚ) ≤ 0)),
    if_neg (by rw [not_or]; constructor <;> norm_num)]
  dsimp only
  rw [if_neg (by norm_num : ¬((1.5 : ℚ) ≤ 0)),
    if_neg (not_le.mpr (by norm_num [piQ] : (0 : ℚ) < 1.5 * (piQ * (1.5 / 2) ^ 2)))]
  unfold WaterExchange.pumpEnergyFromV
  norm_num

/-- Witness for C9 at volume 50000, heads 2 ≤ 3 and lengths via the
head instance. -/
theorem c9_hydraulic_monotonic_witness :
    (1025 * 9.81 * 50000 * ((2 : ℚ) + 0.02 * (100 / 1.5) * (1.5 ^ 2 / (2 * 9.81)))
        / 0.7 / 3600000)
      ≤ (1025 * 9.81 * 50000 * ((3 : ℚ) + 0.02 * (100 / 1.5) * (1.5 ^ 2 / (2 * 9.81)))
        / 0.7 / 3600000) :=
  c9_hydraulic_monotonic.1 { volume_m3 := 50000 } 2 3 _ _ rfl
    (by norm_num) (by norm_num) (by norm_num) (by norm_num)
    (pumping_energy_eval_head 50000 2 (by norm_num))
    (pumping_energy_eval_head 50000 3 (by norm_num))

lemma except_bind_ok {α β : Type} {x : Except String α} {f : α → Except String β}
    {r : β} (h : x.bind f = .ok r) : ∃ a, x = .ok a ∧ f a = .ok r := by
  cases x with
  | error e => exact absurd h (by simp [Except.bind])
  | ok a => exact ⟨a, rfl, h⟩

lemma optEmissions_ok {α : Type} {f : α → Except String ℚ} {oa : Option α}
    {ob : Option ℚ} (h : optEmissions f oa = .ok ob) :
    (oa = none ∧ ob = none) ∨ ∃ a v, oa = some a ∧ f a = .ok v ∧ ob = some v := by
  cases oa with
  | none =>
    unfold Estimator.optEmissions at h
    dsimp only at h
    exact Or.inl ⟨rfl, ((Except.ok.injEq _ _).mp h).symm⟩
  | some a =>
    unfold Estimator.optEmissions at h
    dsimp only at h
    rcases hfa : f a with e | v
    · rw [hfa] at h
      exact absurd h (by simp)
    · rw [hfa] at h
      dsimp only at h
      exact Or.inr ⟨a, v, rfl, hfa, ((Except.ok.injEq _ _).mp h).symm⟩

lemma optEmissions_isSome {α : Type} {f : α → Except String ℚ} {oa : Option α}
    {ob : Option ℚ} (h : optEmissions f oa = .ok ob) : ob.isSome = oa.isSome := by
  rcases optEmissions_ok h with ⟨h1, h2⟩ | ⟨a, v, h1, h2, h3⟩
  · subst h1
    subst h2
    rfl
  · subst h1
    subst h3
    rfl

lemma resolve_total_feed_ok {inputs : EstimatorInputs} {tfk : Option ℚ}
    (h : _resolve_total_feed inputs = .ok tfk) :
    tfk.isSome = true
      ↔ (inputs.feed_input_mode = .fcr ∨ inputs.total_feed_kg.isSome = true) := by
  unfold Estimator._resolve_total_feed at h
  rcases hmode : inputs.feed_input_mode with _ | _
  · rw [hmode] at h
    dsimp only at h
    have htf : tfk = inputs.total_feed_kg := ((Except.ok.injEq _ _).mp h).symm
    subst htf
    constructor
    · exact fun hs => Or.inr hs
    · rintro (hc | hs)
      · exact absurd hc (by decide)
      · exact hs
  · rw [hmode] at h
    dsimp only at h
    rcases hf : inputs.fcr with _ | f
    · rw [hf] at h
      exact absurd h (by simp)
    · rw [hf] at h
      dsimp only at h
      by_cases hneg : f < 0
      · rw [if_pos hneg] at h
        exact absurd h (by simp)
      · rw [if_neg hneg] at h
        have htf : tfk = some (f * inputs.harvested_shrimp_kg) :=
          ((Except.ok.injEq _ _).mp h).symm
        subst htf
        exact iff_of_true rfl (Or.inl rfl)

lemma sequestration_nonneg {s : SequestrationInputs} {v : ℚ}
    (h : sequestration_kgco2e s = .ok v) : 0 ≤ v := by
  obtain ⟨veg, area⟩ := s
  unfold Sequestration.sequestration_kgco2e at h
  dsimp only at h
  by_cases ha : area < 0
  · rw [if_pos ha] at h
    exact absurd h (by simp)
  · rw [if_neg ha] at h
    have hv := (Except.ok.injEq _ _).mp h
    rw [← hv]
    have ha' : 0 ≤ area := not_lt.mp ha
    cases veg <;>
      · norm_num [Sequestration._AGB_TC_PER_HA, Sequestration._ROOT_TO_SHOOT,
          Sequestration._GROWTH_RATE, Sequestration._C_TO_CO2]
        nlinarith [ha']

lemma period_fraction_nonneg {p : Period} {cd : ℚ} (hcd : 0 ≤ cd) :
    0 ≤ _period_fraction_of_year p cd := by
  cases p with
  | cycle => exact div_nonneg hcd (by norm_num)
  | year => exact zero_le_one

/-- The §8 end-to-end estimation request of the spec. -/
def section8Inputs : EstimatorInputs :=
  { harvested_shrimp_kg := 10000
    period := .cycle
    cycle_days := 90
    boundary := .A
    pumping := some { volume_m3 := 50000, grid_country := "Ecuador" }
    aeration := some { total_aeration_hp := 50, operating_hours := 1080, grid_country := "Ecuador" }
    total_feed_kg := some 15000
    seed_thousand_pl := some 2000
    luluc := some { soil_type := .mangrove, area_ha := 5, years_since_conversion := some 2, amortization_years := 20 }
    sequestration := some { vegetation_type := .Mangroves, area_ha := 1 }
    pond_ghg := some { pond_area_m2 := 50000, system_type := .semi_intensive } }

/-- The spec's "only `total_feed_kg` supplied" request. -/
def feedOnlyInputs : EstimatorInputs :=
  { harvested_shrimp_kg := 10000, total_feed_kg := some 15000 }

/-- The result of `estimate feedOnlyInputs`, in closed form. -/
def feedOnlyResult : EstimateResult :=
  { period := .cycle
    cycle_days := some 90
    boundary := .A
    total_kgco2e := 130500
    intensity_kgco2e_per_kg_shrimp := 13.05
    breakdown_kgco2e := { feed := some 130500 } }

/-- C2 counterexample: a valid request whose pumping source meters 0 kWh
yields a breakdown in which `pumping = 0` is a non-positive entry next
to the (negative) sequestration entry, so sequestration is not "the
only non-positive entry" of the breakdown. -/
theorem c2_counterexample :
    (Estimator.estimate
        { harvested_shrimp_kg := 10000
          pumping := some { volume_m3 := 0, method := .metered_kwh, metered_kwh := some 0 }
          sequestration := some { vegetation_type := .Mangroves, area_ha := 1 } }).map
      (fun r => (r.breakdown_kgco2e.pumping,
        r.breakdown_kgco2e.sequestration.map (fun s => decide (s < 0))))
      = .ok (some 0, some true)
    ∧ ¬(0 < (0 : ℚ)) := by
  constructor
  · norm_num +decide [Estimator.estimate, Estimator.optEmissions, Estimator._resolve_total_feed,
      Estimator._period_fraction_of_year, Except.bind, Except.map,
      WaterExchange.pumping_emissions_kgco2e, WaterExchange.pumping_energy_kwh,
      WaterExchange._DEFAULT_GRID_EF_KG_PER_KWH,
      Sequestration.sequestration_kgco2e, Sequestration._AGB_TC_PER_HA,
      Sequestration._ROOT_TO_SHOOT, Sequestration._GROWTH_RATE, Sequestration._C_TO_CO2]
  · norm_num

/-- C2 (amended): for every successful estimation (with a non-negative
cycle length), the breakdown has exactly one entry per present source
and none for an absent source (feed counts as present when selected via
`fcr` mode or a supplied total), the total is the sum of the breakdown
values, the intensity is total ÷ harvested mass, and the sequestration
entry, when present, is non-positive (other entries may also be zero,
so it need not be the *only* non-positive one).  The §8 end-to-end
request yields exactly the seven keys with a strictly negative
sequestration entry and intensity = total/10000, and the feed-only
request yields the single key `feed` with total equal to it. -/
theorem c2_breakdown_structure :
    (∀ (inputs : EstimatorInputs) (r : EstimateResult),
      0 ≤ inputs.cycle_days →
      Estimator.estimate inputs = .ok r →
      (r.breakdown_kgco2e.pumping.isSome = inputs.pumping.isSome
        ∧ r.breakdown_kgco2e.aeration.isSome = inputs.aeration.isSome
        ∧ (r.breakdown_kgco2e.feed.isSome = true ↔
            (inputs.feed_input_mode = .fcr ∨ inputs.total_feed_kg.isSome = true))
        ∧ r.breakdown_kgco2e.seed.isSome = inputs.seed_thousand_pl.isSome
        ∧ r.breakdown_kgco2e.luluc.isSome = inputs.luluc.isSome
        ∧ r.breakdown_kgco2e.sequestration.isSome = inputs.sequestration.isSome
        ∧ r.breakdown_kgco2e.pond_ch4_n2o.isSome = inputs.pond_ghg.isSome)
      ∧ r.total_kgco2e = r.breakdown_kgco2e.total
      ∧ r.intensity_kgco2e_per_kg_shrimp = r.total_kgco2e / inputs.harvested_shrimp_kg
      ∧ (∀ s, r.breakdown_kgco2e.sequestration = some s → s ≤ 0))
    ∧ ((Estimator.estimate section8Inputs).map (fun r => r.breakdown_kgco2e.keys)
        = .ok ["pumping", "aeration", "feed", "seed", "luluc", "sequestration",
            "pond_ch4_n2o"])
    ∧ ((Estimator.estimate section8Inputs).map
        (fun r => r.breakdown_kgco2e.sequestration.map (fun s => decide (s < 0)))
        = .ok (some true))
    ∧ ((Estimator.estimate section8Inputs).map
        (fun r => decide (r.intensity_kgco2e_per_kg_shrimp = r.total_kgco2e / 10000))
        = .ok true)
    ∧ (Estimator.estimate feedOnlyInputs = .ok feedOnlyResult
        ∧ feedOnlyResult.breakdown_kgco2e.toList = [("feed", 130500)]
        ∧ feedOnlyResult.total_kgco2e = 130500) := by
  refine ⟨?_, ?_, ?_, ?_, ?_, by norm_num [Estimator.Breakdown.toList,
    Estimator.optEntry, feedOnlyResult], by norm_num [feedOnlyResult]⟩
  · intro inputs r hcd hok
    unfold Estimator.estimate at hok
    by_cases hh : inputs.harvested_shrimp_kg ≤ 0
    · rw [if_pos hh] at hok
      exact absurd hok (by simp)
    · rw [if_neg hh] at hok
      obtain ⟨bP, hP, hok⟩ := except_bind_ok hok
      obtain ⟨bA, hA, hok⟩ := except_bind_ok hok
      obtain ⟨tfk, hT, hok⟩ := except_bind_ok hok
      obtain ⟨bF, hF, hok⟩ := except_bind_ok hok
      obtain ⟨bS, hS, hok⟩ := except_bind_ok hok
      obtain ⟨bL, hL, hok⟩ := except_bind_ok hok
      obtain ⟨bQ, hQ, hok⟩ := except_bind_ok hok
      obtain ⟨bG, hG, hok⟩ := except_bind_ok hok
      have hr := (Except.ok.injEq _ _).mp hok
      subst hr
      refine ⟨⟨optEmissions_isSome hP, optEmissions_isSome hA, ?_,
        optEmissions_isSome hS, optEmissions_isSome hL, optEmissions_isSome hQ,
        optEmissions_isSome hG⟩, rfl, rfl, ?_⟩
      · rw [optEmissions_isSome hF]
        exact resolve_total_feed_ok hT
      · intro s hs
        rcases optEmissions_ok hQ with ⟨h1, h2⟩ | ⟨a, v, h1, h2, h3⟩
        · rw [h2] at hs
          exact absurd hs (by simp)
        · rw [h3] at hs
          injection hs with hsv
          subst hsv
          rcases hsq : sequestration_kgco2e a with e | w
          · rw [hsq] at h2
            exact absurd h2 (by simp)
          · rw [hsq] at h2
            dsimp only at h2
            have hv := ((Except.ok.injEq _ _).mp h2).symm
            subst hv
            have hw : 0 ≤ w := sequestration_nonneg hsq
            have hfrac : 0 ≤ _period_fraction_of_year inputs.period
                (inputs.cycle_days : ℚ) :=
              period_fraction_nonneg (by exact_mod_cast hcd)
            nlinarith [hw, hfrac]
  · norm_num +decide [Estimator.estimate, Estimator.optEmissions, Estimator._resolve_total_feed,
      Estimator._period_fraction_of_year, Except.bind, Except.map, section8Inputs,
      Estimator.Breakdown.keys, Estimator.Breakdown.toList, Estimator.Breakdown.total,
      Estimator.optEntry,
      WaterExchange.pumping_emissions_kgco2e, WaterExchange.pumping_energy_kwh,
      WaterExchange.pumpEnergyFromV, WaterExchange._DEFAULT_GRID_EF_KG_PER_KWH, piQ,
      Aeration.aeration_emissions_kgco2e, Aeration.aeration_energy_kwh,
      Aeration._DEFAULT_GRID_EF_KG_PER_KWH, Aeration._HP_TO_KW,
      FeedEmissions.feed_emissions_kgco2e, FeedEmissions._DEFAULT_FEED_EF_KGCO2E_PER_KG,
      FeedEmissions.seed_emissions_kgco2e,
      FeedEmissions._DEFAULT_SEED_EF_KGCO2E_PER_1000_PL,
      LULUC.luluc_emissions_kgco2e, LULUC.luluc_emissions_kgco2e_per_year,
      LULUC._resolve_years_since_conversion, LULUC._DEFAULT_SOC_TONNES_C_PER_HA,
      LULUC._C_TO_CO2, max_def, min_def,
      Sequestration.sequestration_kgco2e, Sequestration._AGB_TC_PER_HA,
      Sequestration._ROOT_TO_SHOOT, Sequestration._GROWTH_RATE,
      Sequestration._C_TO_CO2,
      OtherGHG.pond_ch4_n2o_mrv, OtherGHG._period_days, OtherGHG._CH4_G_M2_DAY,
      OtherGHG._N2O_G_M2_DAY, OtherGHG._GWP100_AR6_ch4, OtherGHG._GWP100_AR6_n2o]
  · norm_num +decide [Estimator.estimate, Estimator.optEmissions, Estimator._resolve_total_feed,
      Estimator._period_fraction_of_year, Except.bind, Except.map, section8Inputs,
      WaterExchange.pumping_emissions_kgco2e, WaterExchange.pumping_energy_kwh,
      WaterExchange.pumpEnergyFromV, WaterExchange._DEFAULT_GRID_EF_KG_PER_KWH, piQ,
      Aeration.aeration_emissions_kgco2e, Aeration.aeration_energy_kwh,
      Aeration._DEFAULT_GRID_EF_KG_PER_KWH, Aeration._HP_TO_KW,
      FeedEmissions.feed_emissions_kgco2e, FeedEmissions._DEFAULT_FEED_EF_KGCO2E_PER_KG,
      FeedEmissions.seed_emissions_kgco2e,
      FeedEmissions._DEFAULT_SEED_EF_KGCO2E_PER_1000_PL,
      LULUC.luluc_emissions_kgco2e, LULUC.luluc_emissions_kgco2e_per_year,
      LULUC._resolve_years_since_conversion, LULUC._DEFAULT_SOC_TONNES_C_PER_HA,
      LULUC._C_TO_CO2, max_def, min_def,
      Sequestration.sequestration_kgco2e, Sequestration._AGB_TC_PER_HA,
      Sequestration._ROOT_TO_SHOOT, Sequestration._GROWTH_RATE,
      Sequestration._C_TO_CO2,
      OtherGHG.pond_ch4_n2o_mrv, OtherGHG._period_days, OtherGHG._CH4_G_M2_DAY,
      OtherGHG._N2O_G_M2_DAY, OtherGHG._GWP100_AR6_ch4, OtherGHG._GWP100_AR6_n2o]
  · norm_num +decide [Estimator.estimate, Estimator.optEmissions, Estimator._resolve_total_feed,
      Estimator._period_fraction_of_year, Except.bind, Except.map, section8Inputs,
      Estimator.Breakdown.total, Estimator.Breakdown.toList, Estimator.optEntry,
      WaterExchange.pumping_emissions_kgco2e, WaterExchange.pumping_energy_kwh,
      WaterExchange.pumpEnergyFromV, WaterExchange._DEFAULT_GRID_EF_KG_PER_KWH, piQ,
      Aeration.aeration_emissions_kgco2e, Aeration.aeration_energy_kwh,
      Aeration._DEFAULT_GRID_EF_KG_PER_KWH, Aeration._HP_TO_KW,
      FeedEmissions.feed_emissions_kgco2e, FeedEmissions._DEFAULT_FEED_EF_KGCO2E_PER_KG,
      FeedEmissions.seed_emissions_kgco2e,
      FeedEmissions._DEFAULT_SEED_EF_KGCO2E_PER_1000_PL,
      LULUC.luluc_emissions_kgco2e, LULUC.luluc_emissions_kgco2e_per_year,
      LULUC._resolve_years_since_conversion, LULUC._DEFAULT_SOC_TONNES_C_PER_HA,
      LULUC._C_TO_CO2, max_def, min_def,
      Sequestration.sequestration_kgco2e, Sequestration._AGB_TC_PER_HA,
      Sequestration._ROOT_TO_SHOOT, Sequestration._GROWTH_RATE,
      Sequestration._C_TO_CO2,
      OtherGHG.pond_ch4_n2o_mrv, OtherGHG._period_days, OtherGHG._CH4_G_M2_DAY,
      OtherGHG._N2O_G_M2_DAY, OtherGHG._GWP100_AR6_ch4, OtherGHG._GWP100_AR6_n2o]
  · norm_num +decide [Estimator.estimate, Estimator.optEmissions, Estimator._resolve_total_feed,
      Estimator._period_fraction_of_year, Except.bind, Except.map, feedOnlyInputs,
      feedOnlyResult, Estimator.Breakdown.total, Estimator.Breakdown.toList,
      Estimator.optEntry, FeedEmissions.feed_emissions_kgco2e,
      FeedEmissions._DEFAULT_FEED_EF_KGCO2E_PER_KG]

/-- Witness for C2 (amended), instantiating the universal part at the
feed-only request. -/
theorem c2_breakdown_structure_witness :
    feedOnlyResult.total_kgco2e = feedOnlyResult.breakdown_kgco2e.total
      ∧ feedOnlyResult.intensity_kgco2e_per_kg_shrimp
        = feedOnlyResult.total_kgco2e / feedOnlyInputs.harvested_shrimp_kg := by
  have h := c2_breakdown_structure.1 feedOnlyInputs feedOnlyResult
    (by decide) c2_breakdown_structure.2.2.2.2.1
  exact ⟨h.2.1, h.2.2.1⟩

/-- LULUC request used to exhibit the period double-scaling: mangrove,
5 ha, 2 years since conversion, all other parameters at their defaults
(in particular the `cycle_days` field of the `LulucInputs` itself
defaults to 120). -/
def c1LulucInputs : LulucInputs :=
  { soil_type := .mangrove, area_ha := 5, years_since_conversion := some 2 }

/-- Estimation request holding only the LULUC source, with the
aggregator's `period = cycle` and `cycle_days = 90` defaults. -/
def c1Inputs : EstimatorInputs :=
  { harvested_shrimp_kg := 10000, luluc := some c1LulucInputs }

/-- C1: the annual LULUC allocation for `c1LulucInputs` is 9840187.5 kg,
but the aggregator's breakdown entry is that annual figure scaled TWICE
— once by the `cycle_days/365 = 120/365` of the `LulucInputs` (inside
`luluc_emissions_kgco2e`) and again by the aggregator's period fraction
`90/365` — which differs from the single scaling `annual × 90/365`
the spec describes. -/
theorem c1_luluc_double_scaling :
    luluc_emissions_kgco2e_per_year c1LulucInputs = .ok 9840187.5
    ∧ (Estimator.estimate c1Inputs).map (fun r => r.breakdown_kgco2e.luluc)
        = .ok (some (9840187.5 * (120 / 365) * (90 / 365)))
    ∧ (9840187.5 : ℚ) * (120 / 365) * (90 / 365) ≠ 9840187.5 * (90 / 365) := by
  refine ⟨?_, ?_, by norm_num⟩
  · norm_num +decide [LULUC.luluc_emissions_kgco2e_per_year,
      LULUC._resolve_years_since_conversion, LULUC._DEFAULT_SOC_TONNES_C_PER_HA,
      LULUC._C_TO_CO2, c1LulucInputs, max_def, min_def]
  · norm_num +decide [Estimator.estimate, Estimator.optEmissions,
      Estimator._resolve_total_feed, Estimator._period_fraction_of_year, Except.bind,
      Except.map, c1Inputs, c1LulucInputs, LULUC.luluc_emissions_kgco2e,
      LULUC.luluc_emissions_kgco2e_per_year, LULUC._resolve_years_since_conversion,
      LULUC._DEFAULT_SOC_TONNES_C_PER_HA, LULUC._C_TO_CO2, max_def, min_def]

/-- C10: only the field selected by `feed_input_mode` is consulted for
feed.  In `fcr` mode a missing or negative `fcr` fails with the
source's message, any supplied `total_feed_kg` is ignored (the result
is identical for every value of it), and the feed mass used is
`fcr × harvested_shrimp_kg`.  In `total` mode (the default) any
supplied `fcr` is ignored, and a missing `total_feed_kg` silently omits
the feed entry — no error — even when an `fcr` value was provided. -/
theorem c10_feed_mode_selection :
    (∀ inputs : EstimatorInputs, inputs.feed_input_mode = .fcr → inputs.fcr = none →
      0 < inputs.harvested_shrimp_kg → inputs.pumping = none → inputs.aeration = none →
      Estimator.estimate inputs = .error "feed_input_mode is \x27fcr\x27 but fcr is None")
    ∧ (∀ (inputs : EstimatorInputs) (f : ℚ), inputs.feed_input_mode = .fcr →
      inputs.fcr = some f → f < 0 →
      0 < inputs.harvested_shrimp_kg → inputs.pumping = none → inputs.aeration = none →
      Estimator.estimate inputs = .error "fcr must be >= 0")
    ∧ (∀ (inputs : EstimatorInputs) (t : Option ℚ), inputs.feed_input_mode = .fcr →
      Estimator.estimate { inputs with total_feed_kg := t } = Estimator.estimate inputs)
    ∧ (∀ (inputs : EstimatorInputs) (f : Option ℚ), inputs.feed_input_mode = .total →
      Estimator.estimate { inputs with fcr := f } = Estimator.estimate inputs)
    ∧ (∀ (inputs : EstimatorInputs) (f : ℚ) (r : EstimateResult),
      inputs.feed_input_mode = .fcr → inputs.fcr = some f →
      Estimator.estimate inputs = .ok r →
      ∃ v, feed_emissions_kgco2e (f * inputs.harvested_shrimp_kg) inputs.boundary
          inputs.feed_emission_intensity_kgco2e_per_kg = .ok v
        ∧ r.breakdown_kgco2e.feed = some v)
    ∧ (∀ (inputs : EstimatorInputs) (r : EstimateResult),
      inputs.feed_input_mode = .total → inputs.total_feed_kg = none →
      Estimator.estimate inputs = .ok r → r.breakdown_kgco2e.feed = none)
    ∧ ((Estimator.estimate { harvested_shrimp_kg := 10000, fcr := some 1.5 }).map
        (fun r => r.breakdown_kgco2e.toList) = .ok []) := by
  refine ⟨?_, ?_, ?_, ?_, ?_, ?_, ?_⟩
  · intro inputs hmode hfcr hh hp ha
    simp [Estimator.estimate, Estimator.optEmissions, Estimator._resolve_total_feed,
      Except.bind, hmode, hfcr, hp, ha, not_le.mpr hh]
  · intro inputs f hmode hfcr hneg hh hp ha
    simp [Estimator.estimate, Estimator.optEmissions, Estimator._resolve_total_feed,
      Except.bind, hmode, hfcr, hneg, hp, ha, not_le.mpr hh]
  · intro inputs t hmode
    unfold Estimator.estimate
    have hres : _resolve_total_feed { inputs with total_feed_kg := t }
        = _resolve_total_feed inputs := by
      unfold Estimator._resolve_total_feed
      dsimp only
      rw [hmode]
    dsimp only
    rw [hres]
  · intro inputs f hmode
    unfold Estimator.estimate
    have hres : _resolve_total_feed { inputs with fcr := f }
        = _resolve_total_feed inputs := by
      unfold Estimator._resolve_total_feed
      dsimp only
      rw [hmode]
    dsimp only
    rw [hres]
  · intro inputs f r hmode hfcr hok
    unfold Estimator.estimate at hok
    by_cases hh : inputs.harvested_shrimp_kg ≤ 0
    · rw [if_pos hh] at hok
      exact absurd hok (by simp)
    · rw [if_neg hh] at hok
      obtain ⟨bP, hP, hok⟩ := except_bind_ok hok
      obtain ⟨bA, hA, hok⟩ := except_bind_ok hok
      obtain ⟨tfk, hT, hok⟩ := except_bind_ok hok
      obtain ⟨bF, hF, hok⟩ := except_bind_ok hok
      obtain ⟨bS, hS, hok⟩ := except_bind_ok hok
      obtain ⟨bL, hL, hok⟩ := except_bind_ok hok
      obtain ⟨bQ, hQ, hok⟩ := except_bind_ok hok
      obtain ⟨bG, hG, hok⟩ := except_bind_ok hok
      have hr := (Except.ok.injEq _ _).mp hok
      subst hr
      unfold Estimator._resolve_total_feed at hT
      rw [hmode] at hT
      dsimp only at hT
      rw [hfcr] at hT
      dsimp only at hT
      by_cases hneg : f < 0
      · rw [if_pos hneg] at hT
        exact absurd hT (by simp)
      · rw [if_neg hneg] at hT
        have htfk : tfk = some (f * inputs.harvested_shrimp_kg) :=
          ((Except.ok.injEq _ _).mp hT).symm
        subst htfk
        rcases optEmissions_ok hF with ⟨h1, h2⟩ | ⟨a, v, h1, h2, h3⟩
        · exact absurd h1 (by simp)
        · injection h1 with h1
          subst h1
          exact ⟨v, h2, h3⟩
  · intro inputs r hmode hnone hok
    unfold Estimator.estimate at hok
    by_cases hh : inputs.harvested_shrimp_kg ≤ 0
    · rw [if_pos hh] at hok
      exact absurd hok (by simp)
    · rw [if_neg hh] at hok
      obtain ⟨bP, hP, hok⟩ := except_bind_ok hok
      obtain ⟨bA, hA, hok⟩ := except_bind_ok hok
      obtain ⟨tfk, hT, hok⟩ := except_bind_ok hok
      obtain ⟨bF, hF, hok⟩ := except_bind_ok hok
      obtain ⟨bS, hS, hok⟩ := except_bind_ok hok
      obtain ⟨bL, hL, hok⟩ := except_bind_ok hok
      obtain ⟨bQ, hQ, hok⟩ := except_bind_ok hok
      obtain ⟨bG, hG, hok⟩ := except_bind_ok hok
      have hr := (Except.ok.injEq _ _).mp hok
      subst hr
      unfold Estimator._resolve_total_feed at hT
      rw [hmode] at hT
      dsimp only at hT
      rw [hnone] at hT
      have htfk : tfk = none := ((Except.ok.injEq _ _).mp hT).symm
      subst htfk
      rcases optEmissions_ok hF with ⟨h1, h2⟩ | ⟨a, v, h1, h2, h3⟩
      · exact h2
      · exact absurd h1 (by simp)
  · norm_num +decide [Estimator.estimate, Estimator.optEmissions,
      Estimator._resolve_total_feed, Except.bind, Except.map,
      Estimator.Breakdown.toList, Estimator.optEntry]

/-- Witness for C10, instantiating the fcr-missing failure and the
total-mode fcr-ignored equation at concrete inputs. -/
theorem c10_feed_mode_selection_witness :
    Estimator.estimate { harvested_shrimp_kg := 10000, feed_input_mode := .fcr }
      = .error "feed_input_mode is \x27fcr\x27 but fcr is None"
    ∧ Estimator.estimate { harvested_shrimp_kg := 10000, fcr := some 2 }
      = Estimator.estimate { harvested_shrimp_kg := 10000 } :=
  ⟨c10_feed_mode_selection.1 { harvested_shrimp_kg := 10000, feed_input_mode := .fcr }
     rfl rfl (show (0 : ℚ) < 10000 by norm_num) rfl rfl,
   c10_feed_mode_selection.2.2.2.1 { harvested_shrimp_kg := 10000 } (some 2) rfl⟩

end Shrimpl
